import Mathlib

/-!
Shallow embedding of `src/app/main.py` (Oracle Health FHIR OAuth2 PKCE relay).

The Python handlers are translated into pure Lean functions.  Randomness
(`secrets.token_bytes`, `secrets.token_urlsafe`) and network I/O (the token
endpoint's and the FHIR resource server's responses) are externalized as
explicit inputs, and the module-level mutable globals (`code_verifier_store`,
`access_token_cache`) become explicit state threaded through the handlers.
Library calls (`hashlib.sha256`, `base64.urlsafe_b64encode`, UTF-8 encoding)
are embedded as executable Lean definitions of the corresponding standard
algorithms.
-/

namespace OracleApp

/-! ### 32-bit word arithmetic used by SHA-256 -/

/-- Truncate to a 32-bit word. -/
def w32 (n : Nat) : Nat := n % 4294967296

/-- Right rotation of a 32-bit word by `k` bits. -/
def rotr (k x : Nat) : Nat := w32 ((x >>> k) ||| (x <<< (32 - k)))

/-- Bitwise complement of a 32-bit word. -/
def notW (x : Nat) : Nat := 4294967295 - w32 x

/-- SHA-256 big sigma-0. -/
def bsig0 (x : Nat) : Nat := (rotr 2 x) ^^^ (rotr 13 x) ^^^ (rotr 22 x)

/-- SHA-256 big sigma-1. -/
def bsig1 (x : Nat) : Nat := (rotr 6 x) ^^^ (rotr 11 x) ^^^ (rotr 25 x)

/-- SHA-256 small sigma-0. -/
def ssig0 (x : Nat) : Nat := (rotr 7 x) ^^^ (rotr 18 x) ^^^ (x >>> 3)

/-- SHA-256 small sigma-1. -/
def ssig1 (x : Nat) : Nat := (rotr 17 x) ^^^ (rotr 19 x) ^^^ (x >>> 10)

/-- SHA-256 choice function. -/
def chF (x y z : Nat) : Nat := (x &&& y) ^^^ (notW x &&& z)

/-- SHA-256 majority function. -/
def majF (x y z : Nat) : Nat := (x &&& y) ^^^ (x &&& z) ^^^ (y &&& z)

/-- The 64 SHA-256 round constants (FIPS 180-4, written in decimal). -/
def sha256K : List Nat :=
  [1116352408, 1899447441, 3049323471, 3921009573, 961987163, 1508970993,
   2453635748, 2870763221, 3624381080, 310598401, 607225278, 1426881987,
   1925078388, 2162078206, 2614888103, 3248222580, 3835390401, 4022224774,
   264347078, 604807628, 770255983, 1249150122, 1555081692, 1996064986,
   2554220882, 2821834349, 2952996808, 3210313671, 3336571891, 3584528711,
   113926993, 338241895, 666307205, 773529912, 1294757372, 1396182291,
   1695183700, 1986661051, 2177026350, 2456956037, 2730485921, 2820302411,
   3259730800, 3345764771, 3516065817, 3600352804, 4094571909, 275423344,
   430227734, 506948616, 659060556, 883997877, 958139571, 1322822218,
   1537002063, 1747873779, 1955562222, 2024104815, 2227730452, 2361852424,
   2428436474, 2756734187, 3204031479, 3329325298]

/-- The initial SHA-256 hash value (FIPS 180-4, written in decimal). -/
def sha256H0 : List Nat :=
  [1779033703, 3144134277, 1013904242, 2773480762,
   1359893119, 2600822924, 528734635, 1541459225]

/-- Group a byte list into big-endian 32-bit words (four bytes per word). -/
def toWords : List Nat → List Nat
  | b0 :: b1 :: b2 :: b3 :: rest =>
      (b0 * 16777216 + b1 * 65536 + b2 * 256 + b3) :: toWords rest
  | _ => []

/-- Extend the 16-word message block by `fuel` further schedule words. -/
def scheduleLoop : Nat → List Nat → List Nat
  | 0, w => w
  | k + 1, w =>
      let n := w.length
      let x := w32 (w.getD (n - 16) 0 + ssig0 (w.getD (n - 15) 0) +
                    w.getD (n - 7) 0 + ssig1 (w.getD (n - 2) 0))
      scheduleLoop k (w ++ [x])

/-- The eight 32-bit working variables of the SHA-256 compression loop. -/
structure Hash8 where
  a : Nat
  b : Nat
  c : Nat
  d : Nat
  e : Nat
  f : Nat
  g : Nat
  h : Nat

/-- One SHA-256 compression round with round constant `ki` and schedule word `wi`. -/
def round1 (st : Hash8) (ki wi : Nat) : Hash8 :=
  let t1 := w32 (st.h + bsig1 st.e + chF st.e st.f st.g + ki + wi)
  let t2 := w32 (bsig0 st.a + majF st.a st.b st.c)
  ⟨w32 (t1 + t2), st.a, st.b, st.c, w32 (st.d + t1), st.e, st.f, st.g⟩

/-- Run the compression rounds over paired round constants and schedule words. -/
def roundsLoop : List Nat → List Nat → Hash8 → Hash8
  | k :: ks, w :: ws, st => roundsLoop ks ws (round1 st k w)
  | _, _, st => st

/-- Compress one 64-byte chunk into the running eight-word hash state. -/
def sha256Compress (hs : List Nat) (chunk : List Nat) : List Nat :=
  let w := scheduleLoop 48 (toWords chunk)
  let st0 : Hash8 := ⟨hs.getD 0 0, hs.getD 1 0, hs.getD 2 0, hs.getD 3 0,
                      hs.getD 4 0, hs.getD 5 0, hs.getD 6 0, hs.getD 7 0⟩
  let st := roundsLoop sha256K w st0
  [w32 (hs.getD 0 0 + st.a), w32 (hs.getD 1 0 + st.b),
   w32 (hs.getD 2 0 + st.c), w32 (hs.getD 3 0 + st.d),
   w32 (hs.getD 4 0 + st.e), w32 (hs.getD 5 0 + st.f),
   w32 (hs.getD 6 0 + st.g), w32 (hs.getD 7 0 + st.h)]

/-- The 64-bit big-endian byte encoding of `n` (eight bytes). -/
def bytesBE8 (n : Nat) : List Nat :=
  [n / 72057594037927936 % 256, n / 281474976710656 % 256,
   n / 1099511627776 % 256, n / 4294967296 % 256,
   n / 16777216 % 256, n / 65536 % 256, n / 256 % 256, n % 256]

/-- SHA-256 padding: append `0x80`, zeros to 56 mod 64, then the bit length. -/
def padMsg (msg : List Nat) : List Nat :=
  msg ++ [128] ++ List.replicate ((119 - msg.length % 64) % 64) 0 ++
    bytesBE8 (8 * msg.length)

/-- Split a byte list into 64-byte chunks, with `fuel` bounding the recursion. -/
def chunksLoop : Nat → List Nat → List (List Nat)
  | 0, _ => []
  | _, [] => []
  | fuel + 1, l => l.take 64 :: chunksLoop fuel (l.drop 64)

/-- The 4-byte big-endian encoding of a 32-bit word. -/
def wordBytesBE (n : Nat) : List Nat :=
  [n / 16777216 % 256, n / 65536 % 256, n / 256 % 256, n % 256]

/-- SHA-256 of a byte sequence (the `hashlib.sha256(...).digest()` collaborator):
returns the 32-byte digest. -/
def sha256 (msg : List Nat) : List Nat :=
  let padded := padMsg msg
  (((chunksLoop padded.length padded).foldl sha256Compress sha256H0).map
    wordBytesBE).flatten

/-- FIPS 180-4 test vector: the digest of the empty message. -/
theorem sha256_nil_vector :
    sha256 [] =
      [227, 176, 196, 66, 152, 252, 28, 20, 154, 251, 244, 200, 153, 111, 185,
       36, 39, 174, 65, 228, 100, 155, 147, 76, 164, 149, 153, 27, 120, 82,
       184, 85] := by decide

/-- FIPS 180-4 test vector: the digest of the three bytes of "abc". -/
theorem sha256_abc_vector :
    sha256 [97, 98, 99] =
      [186, 120, 22, 191, 143, 1, 207, 234, 65, 65, 64, 222, 93, 174, 34, 35,
       176, 3, 97, 163, 150, 23, 122, 156, 180, 16, 255, 97, 242, 0, 21,
       173] := by decide

/-! ### URL-safe base64 (the `base64.urlsafe_b64encode(...).rstrip(b'=')` collaborator) -/

/-- The URL-safe base64 alphabet: `A`-`Z`, `a`-`z`, `0`-`9`, `-`, `_`. -/
def b64Alphabet : List Char :=
  "ABCDEFGHIJKLMNOPQRSTUVWXYZabcdefghijklmnopqrstuvwxyz0123456789-_".data

/-- The alphabet character at index `n` (indices produced below are `< 64`). -/
def b64Char (n : Nat) : Char := b64Alphabet.getD n 'A'

/-- URL-safe base64 of a byte list with the `=` padding already stripped,
matching `base64.urlsafe_b64encode(bs).rstrip(b'=')`. -/
def b64urlNoPadChars : List Nat → List Char
  | [] => []
  | [b0] => [b64Char (b0 / 4), b64Char (b0 % 4 * 16)]
  | [b0, b1] => [b64Char (b0 / 4), b64Char (b0 % 4 * 16 + b1 / 16),
                 b64Char (b1 % 16 * 4)]
  | b0 :: b1 :: b2 :: rest =>
      b64Char (b0 / 4) :: b64Char (b0 % 4 * 16 + b1 / 16) ::
      b64Char (b1 % 16 * 4 + b2 / 64) :: b64Char (b2 % 64) ::
      b64urlNoPadChars rest

/-- URL-safe unpadded base64 of a byte list, as a string. -/
def b64urlEncodeNoPad (bs : List Nat) : String := String.mk (b64urlNoPadChars bs)

/-! ### UTF-8 encoding (the Python `str.encode('utf-8')` collaborator) -/

/-- UTF-8 byte encoding of one code point. -/
def utf8Char (c : Char) : List Nat :=
  let n := c.toNat
  if n < 128 then [n]
  else if n < 2048 then [192 + n / 64, 128 + n % 64]
  else if n < 65536 then [224 + n / 4096, 128 + n / 64 % 64, 128 + n % 64]
  else [240 + n / 262144, 128 + n / 4096 % 64, 128 + n / 64 % 64, 128 + n % 64]

/-- UTF-8 byte encoding of a string. -/
def utf8Bytes (s : String) : List Nat := (s.data.map utf8Char).flatten

/-! ### PKCE helpers (`generate_code_verifier`, `generate_code_challenge`) -/

/-- `generate_code_verifier` from `src/app/main.py`:
`base64.urlsafe_b64encode(secrets.token_bytes(40)).rstrip(b'=').decode('utf-8')`.
The 40 random bytes drawn from `secrets.token_bytes` are the explicit input. -/
def generate_code_verifier (randomBytes : List Nat) : String :=
  b64urlEncodeNoPad randomBytes

/-- `generate_code_challenge` from `src/app/main.py`:
`digest = hashlib.sha256(verifier.encode('utf-8')).digest()` followed by
`base64.urlsafe_b64encode(digest).rstrip(b'=').decode('utf-8')`. -/
def generate_code_challenge (verifier : String) : String :=
  let digest := sha256 (utf8Bytes verifier)
  b64urlEncodeNoPad digest

/-! ### Configuration constants (module-level values in `src/app/main.py`).
`ORACLE_CLIENT_ID` is read from the environment, so the handlers below take it
as an explicit parameter; the remaining constants use the source defaults. -/

def TENANT_ID : String := "ec2458f2-1e24-41c8-b71b-0e701af7583d"

def REDIRECT_URI : String := "http://localhost:8080/callback"

def AUTH_URL : String :=
  "https://authorization.cerner.com/tenants/" ++ TENANT_ID ++
    "/protocols/oauth2/profiles/smart-v1/personas/provider/authorize"

def TOKEN_URL : String :=
  "https://authorization.cerner.com/tenants/" ++ TENANT_ID ++
    "/protocols/oauth2/profiles/smart-v1/token"

def FHIR_BASE_URL : String := "https://fhir-ehr-code.cerner.com/r4/" ++ TENANT_ID

/-- The scope string from `login`. -/
def scopeStr : String :=
  "patient/Patient.read patient/Observation.read patient/MedicationHistory.read openid profile"

/-! ### Python-style helpers -/

/-- Python truthiness of an optional string (`if not x` is the negation):
`None` and `""` are falsy. -/
def pyTruthy : Option String → Bool
  | none => false
  | some s => !s.isEmpty

/-- `httpx.Response.raise_for_status` does not raise exactly on 2xx statuses. -/
def is2xx (n : Nat) : Bool := decide (200 ≤ n ∧ n < 300)

/-- Python `needle in hay` for strings. -/
def strContains (hay needle : String) : Bool := decide (2 ≤ (hay.splitOn needle).length)

/-- The `code_verifier_store` dict, as an association list with unique keys. -/
abbrev Store := List (String × String)

/-- Python dict assignment `d[k] = v`: updates the entry in place if the key is
present, otherwise appends a new entry. -/
def dictInsert (k v : String) : Store → Store
  | [] => [(k, v)]
  | (k1, v1) :: rest => if k1 == k then (k, v) :: rest else (k1, v1) :: dictInsert k v rest

/-- The removal part of Python `d.pop(k)` (the value is read via `List.lookup`). -/
def dictErase (k : String) : Store → Store
  | [] => []
  | (k1, v1) :: rest => if k1 == k then rest else (k1, v1) :: dictErase k rest

/-! ### JSON values and HTTP responses -/

/-- A JSON value, as much of it as the handlers construct. -/
inductive JVal where
  | s (v : String)
  | n (v : Nat)
  | nul
  | obj (fields : List (String × JVal))

/-- `None`-defaulting JSON injection of an optional string (Python `dict.get`). -/
def jstrOpt : Option String → JVal
  | none => .nul
  | some v => .s v

/-- `None`-defaulting JSON injection of an optional number. -/
def jnumOpt : Option Nat → JVal
  | none => .nul
  | some v => .n v

/-- An HTTP response produced by a handler: status code and JSON body. -/
structure Response where
  status : Nat
  content : List (String × JVal)

/-- `fastapi.HTTPException`: status code and detail string.  FastAPI renders it
as a response with body `{"detail": detail}`. -/
structure HTTPEx where
  status : Nat
  detail : String
deriving DecidableEq

/-! ### Token exchange client (`exchange_code_for_token`) -/

/-- The parsed JSON body of the remote token endpoint's response, restricted to
the fields the handlers read (`dict.get` of an absent field yields `None`). -/
structure TokenData where
  access_token : Option String
  token_type : Option String
  expires_in : Option Nat
  scope : Option String
  patient : Option String
deriving DecidableEq

/-- The raw upstream token-endpoint response: status, body text, and the parsed
JSON object (`none` when `response.json()` would raise). -/
structure TokenEndpointResponse where
  status : Nat
  text : String
  json : Option TokenData
deriving DecidableEq

/-- Stand-in for `str(e)` of the `JSONDecodeError` raised by `response.json()`
on a non-JSON body. -/
def jsonDecodeErrMsg : String := "Expecting value: line 1 column 1 (char 0)"

/-- `exchange_code_for_token` from `src/app/main.py`.  The network is
externalized: `resp` is what the single POST to `TOKEN_URL` returns.  Control
flow of the source: a missing client id raises 500 before the request; a
non-2xx status raises `httpx.HTTPStatusError` inside `raise_for_status`,
caught and re-raised as `HTTPException(status, "Failed to exchange ...")`; a
2xx body without a truthy `access_token` raises `HTTPException(500, "No access
token received from Oracle")`, which the generic `except Exception` handler
wraps as `HTTPException(500, "Error exchanging code for token: " + str(e))`,
where `str` of a starlette `HTTPException` is `"{status}: {detail}"`. -/
def exchange_code_for_token (clientId _authorization_code _code_verifier : String)
    (resp : TokenEndpointResponse) : Except HTTPEx TokenData :=
  if clientId.isEmpty then
    .error ⟨500, "Oracle client ID not configured. Please check your .env file."⟩
  else if !is2xx resp.status then
    .error ⟨resp.status, "Failed to exchange code for token: " ++ resp.text⟩
  else
    match resp.json with
    | none => .error ⟨500, "Error exchanging code for token: " ++ jsonDecodeErrMsg⟩
    | some token_data =>
        if pyTruthy token_data.access_token then .ok token_data
        else .error ⟨500,
          "Error exchanging code for token: 500: No access token received from Oracle"⟩

/-! ### `/login` handler -/

/-- Render a query-parameter list the way `login` concatenates it:
`k1=v1&k2=v2&...&kn=vn`. -/
def renderQuery : List (String × String) → String
  | [] => ""
  | [(k, v)] => k ++ "=" ++ v
  | (k, v) :: ps => k ++ "=" ++ v ++ "&" ++ renderQuery ps

/-- Result of the `/login` handler: HTTP response, the authorize-URL query
parameters in order, the rendered URL, and the updated verifier store. -/
structure LoginResult where
  response : Response
  authParams : List (String × String)
  auth_url : String
  store : Store

/-- The `/login` handler from `src/app/main.py`.  Randomness is externalized:
`verifierBytes` stands for `secrets.token_bytes(40)` and `state` for
`secrets.token_urlsafe(32)`.  The handler stores the verifier under the state
key by plain dict assignment and returns the authorize URL built from the
query parameters listed in the source order. -/
def login (clientId : String) (verifierBytes : List Nat) (state : String)
    (store : Store) : LoginResult :=
  if clientId.isEmpty then
    ⟨⟨500, [("detail", .s "Oracle client ID not configured")]⟩, [], "", store⟩
  else
    let code_verifier := generate_code_verifier verifierBytes
    let code_challenge := generate_code_challenge code_verifier
    let store2 := dictInsert state code_verifier store
    let params := [("response_type", "code"), ("client_id", clientId),
      ("redirect_uri", REDIRECT_URI), ("scope", scopeStr.replace " " "%20"),
      ("code_challenge", code_challenge), ("code_challenge_method", "S256"),
      ("state", state), ("aud", FHIR_BASE_URL)]
    let auth_url := AUTH_URL ++ "?" ++ renderQuery params
    ⟨⟨200,
      [("auth_url", .s auth_url),
       ("message", .s "Visit the auth_url to authorize the application"),
       ("state", .s state),
       ("api_product", .s "Oracle Health FHIR APIs for Millennium: FHIR R4, All"),
       ("privacy", .s "Public"),
       ("launch_type", .s "Standalone"),
       ("fhir_version", .s "R4")]⟩, params, auth_url, store2⟩

/-! ### `/callback` handler -/

/-- Result of the `/callback` handler: HTTP response, updated token cache,
updated verifier store, plus two effect traces — `exchanged` records the
`(code, verifier)` pair passed to `exchange_code_for_token` when the exchange
is attempted, and `consumed` records the state key popped from the store. -/
structure CallbackResult where
  response : Response
  cache : Option String
  store : Store
  exchanged : Option (String × String)
  consumed : Option String

/-- Body of the launch-context error branch of `callback`. -/
def launchErrorContent (error_code error_description error_uri : String) :
    List (String × JVal) :=
  [("error", .s "Launch Context Required"),
   ("message", .s "This app requires EHR launch context. Please configure your Oracle app for \x27Standalone Launch\x27."),
   ("details", .obj
     [("error_code", .s error_code),
      ("error_description", .s error_description),
      ("error_uri", .s error_uri),
      ("solution", .s "In your Oracle developer portal, change app launch type to \x27Standalone\x27 or remove \x27launch\x27 scope")])]

/-- Body of the generic OAuth error branch of `callback`. -/
def authFailedContent (error_code error_description error_uri : String) :
    List (String × JVal) :=
  [("error", .s "Authorization Failed"),
   ("error_code", .s error_code),
   ("error_description", .s error_description),
   ("error_uri", .s error_uri)]

/-- Body of the missing-authorization-code branch of `callback`. -/
def missingCodeContent (q : List (String × String)) : List (String × JVal) :=
  [("error", .s "Missing authorization code"),
   ("message", .s "No authorization code received from Oracle Health"),
   ("query_params", .obj (q.map fun p => (p.1, JVal.s p.2)))]

/-- Body of the invalid-state branch of `callback`. -/
def invalidStateContent : List (String × JVal) :=
  [("error", .s "Invalid state parameter"),
   ("message", .s "State parameter missing or invalid")]

/-- Body of the successful-exchange response of `callback`.  Built from the
token metadata only; the `access_token` field itself is not included. -/
def callbackSuccessContent (token_data : TokenData) : List (String × JVal) :=
  [("message", .s "Authorization successful! You can now fetch patient data."),
   ("token_type", jstrOpt token_data.token_type),
   ("expires_in", jnumOpt token_data.expires_in),
   ("scope", jstrOpt token_data.scope),
   ("patient", jstrOpt token_data.patient),
   ("redirect_to", .s "/static/index.html")]

/-- Body of the exchange-failure branch of `callback`: the raised
`HTTPException` is caught by the generic `except Exception` handler and
re-surfaced as a 500 with `str(e) = "{status}: {detail}"`. -/
def exchangeFailContent (e : HTTPEx) : List (String × JVal) :=
  [("error", .s "Token exchange failed"),
   ("message", .s (toString e.status ++ ": " ++ e.detail))]

/-- The `/callback` handler from `src/app/main.py`.  `q` is
`dict(request.query_params)` as an association list with unique keys; `up` is
the token endpoint's response, consulted only if the exchange is reached.
Source order: the `error` parameter is checked first (before the store is
touched), then a falsy `code` rejects, then a falsy or unknown `state`
rejects; otherwise the entry is popped from the store and the exchange runs,
with the cache written only on success. -/
def callback (clientId : String) (q : List (String × String))
    (up : TokenEndpointResponse) (store : Store) (cache : Option String) :
    CallbackResult :=
  match List.lookup "error" q with
  | some error_code =>
      let error_description := (List.lookup "error_description" q).getD "No description provided"
      let error_uri := (List.lookup "error_uri" q).getD ""
      if strContains error_uri "launch:code-required" || error_code == "invalid_request" then
        ⟨⟨400, launchErrorContent error_code error_description error_uri⟩,
          cache, store, none, none⟩
      else
        ⟨⟨400, authFailedContent error_code error_description error_uri⟩,
          cache, store, none, none⟩
  | none =>
      let code := List.lookup "code" q
      let state := List.lookup "state" q
      if !pyTruthy code then
        ⟨⟨400, missingCodeContent q⟩, cache, store, none, none⟩
      else if !pyTruthy state then
        ⟨⟨400, invalidStateContent⟩, cache, store, none, none⟩
      else
        match List.lookup (state.getD "") store with
        | none => ⟨⟨400, invalidStateContent⟩, cache, store, none, none⟩
        | some code_verifier =>
            let s := state.getD ""
            let store2 := dictErase s store
            match exchange_code_for_token clientId (code.getD "") code_verifier up with
            | .ok token_data =>
                ⟨⟨200, callbackSuccessContent token_data⟩, token_data.access_token,
                  store2, some (code.getD "", code_verifier), some s⟩
            | .error e =>
                ⟨⟨500, exchangeFailContent e⟩, cache, store2,
                  some (code.getD "", code_verifier), some s⟩

/-! ### `/patients` handler -/

/-- The raw FHIR resource-server response: status, body text, and the parsed
JSON object (`none` when `response.json()` would raise). -/
structure FhirResponse where
  status : Nat
  text : String
  json : Option (List (String × JVal))

/-- Result of the `/patients` handler: HTTP response, updated token cache,
whether the resource server was contacted, and the `Authorization` header
attached to that request when it was. -/
structure PatientsResult where
  response : Response
  cache : Option String
  contacted : Bool
  authHeader : Option String

/-- The 401 raised by `get_patients` when no access token is cached. -/
def noTokenDetail : String :=
  "No access token available. Please complete authorization flow first by visiting /login"

/-- The 401 raised by `get_patients` after the resource server returns 401. -/
def expiredTokenDetail : String :=
  "Access token expired or invalid. Please re-authorize."

/-- The `/patients` handler (`get_patients`) from `src/app/main.py`.  `fhir` is
the resource server's response to the single GET, consulted only if a token is
cached.  Source control flow: a falsy cache raises 401 before any request; a
2xx response is reshaped and returned; `raise_for_status` on a non-2xx status
raises `httpx.HTTPStatusError`, whose handler clears the cache and raises 401
exactly when the remote status is 401, and otherwise passes the remote status
and body through. -/
def get_patients (cache : Option String) (fhir : FhirResponse) : PatientsResult :=
  if !pyTruthy cache then
    ⟨⟨401, [("detail", .s noTokenDetail)]⟩, cache, false, none⟩
  else
    let authHeader := "Bearer " ++ cache.getD ""
    if is2xx fhir.status then
      match fhir.json with
      | some fields =>
          ⟨⟨200,
            [("message", .s "Successfully fetched patients from Oracle Health FHIR R4"),
             ("api_version", .s "FHIR R4"),
             ("total", (List.lookup "total" fields).getD (.n 0)),
             ("resource_type", (List.lookup "resourceType" fields).getD .nul),
             ("request_url", .s (FHIR_BASE_URL ++ "/Patient")),
             ("response", .obj fields)]⟩, cache, true, some authHeader⟩
      | none =>
          ⟨⟨500, [("detail", .s ("Error: " ++ jsonDecodeErrMsg))]⟩,
            cache, true, some authHeader⟩
    else if fhir.status == 401 then
      ⟨⟨401, [("detail", .s expiredTokenDetail)]⟩, none, true, some authHeader⟩
    else
      ⟨⟨fhir.status, [("detail", .s ("FHIR API error: " ++ fhir.text))]⟩,
        cache, true, some authHeader⟩

/-! ### Helper lemmas about the store operations and base64 encoding -/

/-- A key outside the key set of an association list has no lookup result. -/
theorem lookup_eq_none_of_not_mem_keys {k : String} :
    ∀ st : Store, k ∉ st.map Prod.fst → List.lookup k st = none
  | [], _ => rfl
  | (k1, _) :: rest, h => by
      simp only [List.map_cons, List.mem_cons, not_or] at h
      have hne : (k == k1) = false := beq_eq_false_iff_ne.mpr h.1
      simp [List.lookup, hne, lookup_eq_none_of_not_mem_keys rest h.2]

/-- Looking up the key just written by dict assignment yields the new value. -/
theorem lookup_dictInsert_self (k v : String) :
    ∀ st : Store, List.lookup k (dictInsert k v st) = some v
  | [] => by simp [dictInsert, List.lookup]
  | (k1, v1) :: rest => by
      by_cases h : k1 = k
      · simp [dictInsert, h, List.lookup]
      · have hne : (k == k1) = false := beq_eq_false_iff_ne.mpr (Ne.symm h)
        have hne2 : (k1 == k) = false := beq_eq_false_iff_ne.mpr h
        simp [dictInsert, hne2, List.lookup, hne, lookup_dictInsert_self k v rest]

/-- After popping a key from a unique-key association list, the key is gone. -/
theorem lookup_dictErase_self (k : String) :
    ∀ st : Store, (st.map Prod.fst).Nodup → List.lookup k (dictErase k st) = none
  | [], _ => rfl
  | (k1, v1) :: rest, h => by
      simp only [List.map_cons, List.nodup_cons] at h
      by_cases hk : k1 = k
      · subst hk
        simp [dictErase, lookup_eq_none_of_not_mem_keys rest h.1]
      · have hne : (k == k1) = false := beq_eq_false_iff_ne.mpr (Ne.symm hk)
        have hne2 : (k1 == k) = false := beq_eq_false_iff_ne.mpr hk
        simp [dictErase, hne2, List.lookup, hne, lookup_dictErase_self k rest h.2]

/-- The length of unpadded base64 output, as a function of the input length. -/
theorem b64urlNoPadChars_length :
    ∀ bs : List Nat, (b64urlNoPadChars bs).length = (4 * bs.length + 2) / 3 := by
  intro bs
  induction bs using b64urlNoPadChars.induct with
  | case1 => simp [b64urlNoPadChars]
  | case2 b0 => simp [b64urlNoPadChars]
  | case3 b0 b1 => simp [b64urlNoPadChars]
  | case4 b0 b1 b2 rest ih =>
      simp only [b64urlNoPadChars, List.length_cons]
      rw [ih]
      omega

/-- Every alphabet index produces a character of the alphabet. -/
theorem b64Char_mem (n : Nat) : b64Char n ∈ b64Alphabet := by
  unfold b64Char
  by_cases h : n < b64Alphabet.length
  · rw [List.getD_eq_getElem?_getD, List.getElem?_eq_getElem h]
    exact List.getElem_mem _
  · rw [List.getD_eq_getElem?_getD, List.getElem?_eq_none (Nat.le_of_not_lt h)]
    decide

/-- Every character of unpadded base64 output lies in the URL-safe alphabet. -/
theorem b64urlNoPadChars_subset :
    ∀ (bs : List Nat) (c : Char), c ∈ b64urlNoPadChars bs → c ∈ b64Alphabet := by
  intro bs
  induction bs using b64urlNoPadChars.induct with
  | case1 => simp [b64urlNoPadChars]
  | case2 b0 =>
      intro c hc
      simp only [b64urlNoPadChars, List.mem_cons, List.not_mem_nil, or_false] at hc
      rcases hc with h | h <;> exact h ▸ b64Char_mem _
  | case3 b0 b1 =>
      intro c hc
      simp only [b64urlNoPadChars, List.mem_cons, List.not_mem_nil, or_false] at hc
      rcases hc with h | h | h <;> exact h ▸ b64Char_mem _
  | case4 b0 b1 b2 rest ih =>
      intro c hc
      simp only [b64urlNoPadChars, List.mem_cons] at hc
      rcases hc with h | h | h | h | h
      · exact h ▸ b64Char_mem _
      · exact h ▸ b64Char_mem _
      · exact h ▸ b64Char_mem _
      · exact h ▸ b64Char_mem _
      · exact ih c h

/-! ### Claims -/

set_option maxRecDepth 4000 in
/-- C8: `generate_code_challenge` is a pure deterministic function: for every
verifier string `V` it returns the URL-safe, unpadded base64 encoding of the
SHA-256 digest of `V`'s UTF-8 bytes, and repeated calls on the same `V` return
identical results.  The final conjunct checks the pipeline against the
RFC 7636 appendix B example. -/
theorem claim_C8_derive_challenge_pure :
    (∀ V : String, generate_code_challenge V =
      b64urlEncodeNoPad (sha256 (utf8Bytes V))) ∧
    (∀ V : String, generate_code_challenge V = generate_code_challenge V) ∧
    generate_code_challenge "dBjftJeZ4CVP-mB92K27uhbUJU1p1r_wW1gFWFOEjXk" =
      "E9Melhoa2OwvFrEMTJguCHaoeK1t8URWbuGJSstw-cM" :=
  ⟨fun _ => rfl, fun _ => rfl, by decide⟩

/-- C9: every string produced by `generate_code_verifier` on the 40 random
bytes drawn by `secrets.token_bytes(40)` has length at least 43 (in fact
exactly 54) and consists only of characters of the URL-safe base64 alphabet
`A`-`Z`, `a`-`z`, `0`-`9`, `-`, `_`. -/
theorem claim_C9_verifier_shape (randomBytes : List Nat)
    (hlen : randomBytes.length = 40) :
    43 ≤ (generate_code_verifier randomBytes).length ∧
    (generate_code_verifier randomBytes).length = 54 ∧
    ∀ c ∈ (generate_code_verifier randomBytes).data, c ∈ b64Alphabet := by
  have hdata : (generate_code_verifier randomBytes).data = b64urlNoPadChars randomBytes := rfl
  have hl : (generate_code_verifier randomBytes).length = (b64urlNoPadChars randomBytes).length := rfl
  rw [hl, b64urlNoPadChars_length, hlen]
  refine ⟨by omega, by omega, ?_⟩
  intro c hc
  rw [hdata] at hc
  exact b64urlNoPadChars_subset randomBytes c hc

/-- Witness for C9 at a concrete 40-byte input. -/
theorem claim_C9_verifier_shape_witness :
    43 ≤ (generate_code_verifier (List.replicate 40 7)).length ∧
    (generate_code_verifier (List.replicate 40 7)).length = 54 ∧
    ∀ c ∈ (generate_code_verifier (List.replicate 40 7)).data, c ∈ b64Alphabet :=
  claim_C9_verifier_shape (List.replicate 40 7) (by decide)

/-- C7: with a configured client id, `exchange_code_for_token` returns the
parsed token data exactly when the remote token endpoint responds 2xx with a
non-empty `access_token` field; a non-2xx response fails with an error carrying
the remote status code and raw body; a 2xx response without a usable
`access_token` fails with a 500 malformed-response error. -/
theorem claim_C7_exchange_result (clientId code verifier : String)
    (resp : TokenEndpointResponse) (hcfg : clientId.isEmpty = false) :
    ((∃ td, exchange_code_for_token clientId code verifier resp = .ok td) ↔
      is2xx resp.status = true ∧
        ∃ td, resp.json = some td ∧ pyTruthy td.access_token = true) ∧
    (∀ td, is2xx resp.status = true → resp.json = some td →
      pyTruthy td.access_token = true →
      exchange_code_for_token clientId code verifier resp = .ok td) ∧
    (is2xx resp.status = false →
      exchange_code_for_token clientId code verifier resp =
        .error ⟨resp.status, "Failed to exchange code for token: " ++ resp.text⟩) ∧
    (∀ td, is2xx resp.status = true → resp.json = some td →
      pyTruthy td.access_token = false →
      exchange_code_for_token clientId code verifier resp =
        .error ⟨500,
          "Error exchanging code for token: 500: No access token received from Oracle"⟩) := by
  refine ⟨⟨?_, ?_⟩, ?_, ?_, ?_⟩
  · rintro ⟨td, htd⟩
    cases h2 : is2xx resp.status with
    | false => simp [exchange_code_for_token, hcfg, h2] at htd
    | true =>
        rcases hj : resp.json with _ | td0
        · simp [exchange_code_for_token, hcfg, h2, hj] at htd
        · cases ht : pyTruthy td0.access_token with
          | false => simp [exchange_code_for_token, hcfg, h2, hj, ht] at htd
          | true => exact ⟨rfl, td0, rfl, ht⟩
  · rintro ⟨h2, td, hj, ht⟩
    exact ⟨td, by simp [exchange_code_for_token, hcfg, h2, hj, ht]⟩
  · intro td h2 hj ht
    simp [exchange_code_for_token, hcfg, h2, hj, ht]
  · intro h2f
    simp [exchange_code_for_token, hcfg, h2f]
  · intro td h2 hj ht
    simp [exchange_code_for_token, hcfg, h2, hj, ht]

/-- Witness for C7 at a concrete configured client and 2xx response. -/
theorem claim_C7_exchange_result_witness :
    (exchange_code_for_token "cid" "C" "V"
        ⟨200, "body", some ⟨some "tok123", some "Bearer", some 3600, none, none⟩⟩ =
      .ok ⟨some "tok123", some "Bearer", some 3600, none, none⟩) ∧
    (exchange_code_for_token "cid" "C" "V" ⟨400, "denied", none⟩ =
      .error ⟨400, "Failed to exchange code for token: denied"⟩) :=
  ⟨((claim_C7_exchange_result "cid" "C" "V"
        ⟨200, "body", some ⟨some "tok123", some "Bearer", some 3600, none, none⟩⟩
        (by decide)).2.1 _ (by decide) rfl (by decide)),
   ((claim_C7_exchange_result "cid" "C" "V" ⟨400, "denied", none⟩
        (by decide)).2.2.1 (by decide))⟩

/-- C2: for every `/login` invocation, the authorize URL carries a
`code_challenge` query parameter equal to `generate_code_challenge` of the
verifier stored in the state store under the `state` value returned in the
same response, together with `code_challenge_method=S256` and that `state`
value; the returned URL is `AUTH_URL ++ "?" ++` the rendered parameters. -/
theorem claim_C2_login_roundtrip (clientId : String) (verifierBytes : List Nat)
    (state : String) (store : Store) (hcfg : clientId.isEmpty = false) :
    List.lookup state (login clientId verifierBytes state store).store =
      some (generate_code_verifier verifierBytes) ∧
    ("code_challenge", generate_code_challenge (generate_code_verifier verifierBytes)) ∈
      (login clientId verifierBytes state store).authParams ∧
    ("code_challenge_method", "S256") ∈
      (login clientId verifierBytes state store).authParams ∧
    ("state", state) ∈ (login clientId verifierBytes state store).authParams ∧
    ("state", JVal.s state) ∈ (login clientId verifierBytes state store).response.content ∧
    (login clientId verifierBytes state store).auth_url =
      AUTH_URL ++ "?" ++ renderQuery (login clientId verifierBytes state store).authParams := by
  simp only [login, hcfg, Bool.false_eq_true, if_false]
  exact ⟨lookup_dictInsert_self _ _ _, by simp, by simp, by simp, by simp, by trivial⟩

/-- Witness for C2 at a concrete client id, byte string, state and store. -/
theorem claim_C2_login_roundtrip_witness :
    List.lookup "S1" (login "cid" (List.replicate 40 7) "S1" []).store =
      some (generate_code_verifier (List.replicate 40 7)) ∧
    ("code_challenge", generate_code_challenge (generate_code_verifier (List.replicate 40 7))) ∈
      (login "cid" (List.replicate 40 7) "S1" []).authParams ∧
    ("code_challenge_method", "S256") ∈
      (login "cid" (List.replicate 40 7) "S1" []).authParams ∧
    ("state", "S1") ∈ (login "cid" (List.replicate 40 7) "S1" []).authParams ∧
    ("state", JVal.s "S1") ∈ (login "cid" (List.replicate 40 7) "S1" []).response.content ∧
    (login "cid" (List.replicate 40 7) "S1" []).auth_url =
      AUTH_URL ++ "?" ++ renderQuery (login "cid" (List.replicate 40 7) "S1" []).authParams :=
  claim_C2_login_roundtrip "cid" (List.replicate 40 7) "S1" [] (by decide)

set_option maxRecDepth 4000 in
/-- C3 counterexample: with the state key `"S"` already present in the store,
`/login` does not fail — it returns 200 and silently overwrites the stored
verifier `"v1"` with the newly generated one. -/
theorem claim_C3_counterexample :
    (login "cid" (List.replicate 40 7) "S" [("S", "v1")]).response.status = 200 ∧
    List.lookup "S" (login "cid" (List.replicate 40 7) "S" [("S", "v1")]).store =
      some (generate_code_verifier (List.replicate 40 7)) ∧
    generate_code_verifier (List.replicate 40 7) ≠ "v1" := by decide

/-- C3 (amended): inserting into the Authorization State Store at `/login`
never fails with a conflict — the handler always succeeds (status 200) and
writes the new verifier under the state key by plain dict assignment, so an
entry already present under that key is silently overwritten. -/
theorem claim_C3_insert_overwrites (clientId : String) (verifierBytes : List Nat)
    (state : String) (store : Store) (hcfg : clientId.isEmpty = false) :
    (login clientId verifierBytes state store).response.status = 200 ∧
    (login clientId verifierBytes state store).store =
      dictInsert state (generate_code_verifier verifierBytes) store ∧
    List.lookup state (login clientId verifierBytes state store).store =
      some (generate_code_verifier verifierBytes) := by
  simp only [login, hcfg, Bool.false_eq_true, if_false]
  exact ⟨by trivial, by trivial, lookup_dictInsert_self _ _ _⟩

/-- Witness for the amended C3: the counterexample input, through the theorem. -/
theorem claim_C3_insert_overwrites_witness :
    (login "cid" (List.replicate 40 7) "S" [("S", "v1")]).response.status = 200 ∧
    (login "cid" (List.replicate 40 7) "S" [("S", "v1")]).store =
      dictInsert "S" (generate_code_verifier (List.replicate 40 7)) [("S", "v1")] ∧
    List.lookup "S" (login "cid" (List.replicate 40 7) "S" [("S", "v1")]).store =
      some (generate_code_verifier (List.replicate 40 7)) :=
  claim_C3_insert_overwrites "cid" (List.replicate 40 7) "S" [("S", "v1")] (by decide)

/-- Inversion for a successful exchange: it requires a 2xx upstream status,
a parsed body, and a truthy `access_token`, and returns exactly that body. -/
theorem exchange_ok_inv {clientId a v : String} {resp : TokenEndpointResponse}
    {td : TokenData} (h : exchange_code_for_token clientId a v resp = .ok td) :
    resp.json = some td ∧ is2xx resp.status = true ∧
      pyTruthy td.access_token = true := by
  unfold exchange_code_for_token at h
  by_cases h1 : clientId.isEmpty
  · simp [h1] at h
  · by_cases h2 : is2xx resp.status
    · rcases hj : resp.json with _ | td0
      · rw [hj] at h
        simp [h1, h2] at h
      · rw [hj] at h
        by_cases ht : pyTruthy td0.access_token
        · simp [h1, h2, ht] at h
          subst h
          exact ⟨rfl, h2, ht⟩
        · simp [h1, h2, ht] at h
    · simp [h1, h2] at h

/-- C4: `/callback` validates in the fixed order error, code, state.  A query
with an `error` parameter yields 400 with no exchange attempted and no
state-store entry read or removed; absent an error, a query with a falsy
`code` yields the 400 missing-authorization-code response before the state
store is consulted.  In both cases the store and cache are untouched. -/
theorem claim_C4_validation_order (clientId : String) (q : List (String × String))
    (up : TokenEndpointResponse) (store : Store) (cache : Option String) :
    (∀ ec, List.lookup "error" q = some ec →
      (callback clientId q up store cache).response.status = 400 ∧
      (callback clientId q up store cache).exchanged = none ∧
      (callback clientId q up store cache).consumed = none ∧
      (callback clientId q up store cache).store = store ∧
      (callback clientId q up store cache).cache = cache) ∧
    (List.lookup "error" q = none → pyTruthy (List.lookup "code" q) = false →
      (callback clientId q up store cache).response = ⟨400, missingCodeContent q⟩ ∧
      (callback clientId q up store cache).exchanged = none ∧
      (callback clientId q up store cache).consumed = none ∧
      (callback clientId q up store cache).store = store ∧
      (callback clientId q up store cache).cache = cache) := by
  constructor
  · intro ec herr
    simp only [callback, herr]
    split <;> exact ⟨rfl, rfl, rfl, rfl, rfl⟩
  · intro herr hcode
    simp [callback, herr, hcode]

/-- Witness for C4: an `error=access_denied` callback and a codeless callback. -/
theorem claim_C4_validation_order_witness :
    ((callback "cid" [("error", "access_denied")] ⟨200, "", none⟩ [("S1", "v")]
        (some "tok")).response.status = 400 ∧
      (callback "cid" [("error", "access_denied")] ⟨200, "", none⟩ [("S1", "v")]
        (some "tok")).exchanged = none ∧
      (callback "cid" [("error", "access_denied")] ⟨200, "", none⟩ [("S1", "v")]
        (some "tok")).consumed = none ∧
      (callback "cid" [("error", "access_denied")] ⟨200, "", none⟩ [("S1", "v")]
        (some "tok")).store = [("S1", "v")] ∧
      (callback "cid" [("error", "access_denied")] ⟨200, "", none⟩ [("S1", "v")]
        (some "tok")).cache = some "tok") ∧
    (callback "cid" [("state", "S1")] ⟨200, "", none⟩ [("S1", "v")]
        (some "tok")).response =
      ⟨400, missingCodeContent [("state", "S1")]⟩ :=
  ⟨(claim_C4_validation_order "cid" [("error", "access_denied")] ⟨200, "", none⟩
      [("S1", "v")] (some "tok")).1 "access_denied" (by decide),
   ((claim_C4_validation_order "cid" [("state", "S1")] ⟨200, "", none⟩
      [("S1", "v")] (some "tok")).2 (by decide) (by decide)).1⟩

/-- C1: the flow-state entry for a state token is consumed at most once.
For a callback with a truthy `code` and no `error` parameter: a falsy or
unknown `state` receives the 400 invalid-state response with the store
untouched; the first callback presenting a stored state pops exactly that
entry, hands its verifier to the token exchange, leaves the state absent from
the store afterwards (independent of the exchange outcome), and any later
callback replaying the same state against the resulting store receives the
400 invalid-state response. -/
theorem claim_C1_state_consumed_once (clientId : String) (q : List (String × String))
    (up : TokenEndpointResponse) (store : Store) (cache : Option String)
    (hnodup : (store.map Prod.fst).Nodup)
    (herr : List.lookup "error" q = none)
    (hcode : pyTruthy (List.lookup "code" q) = true) :
    ((pyTruthy (List.lookup "state" q) = false ∨
        List.lookup ((List.lookup "state" q).getD "") store = none) →
      (callback clientId q up store cache).response = ⟨400, invalidStateContent⟩ ∧
      (callback clientId q up store cache).store = store) ∧
    (∀ s v, List.lookup "state" q = some s → pyTruthy (some s) = true →
      List.lookup s store = some v →
      (callback clientId q up store cache).consumed = some s ∧
      (callback clientId q up store cache).exchanged =
        some ((List.lookup "code" q).getD "", v) ∧
      (callback clientId q up store cache).store = dictErase s store ∧
      List.lookup s (callback clientId q up store cache).store = none ∧
      (∀ clientId2 q2 up2 cache2,
        List.lookup "error" q2 = none → pyTruthy (List.lookup "code" q2) = true →
        List.lookup "state" q2 = some s →
        (callback clientId2 q2 up2 (callback clientId q up store cache).store
            cache2).response = ⟨400, invalidStateContent⟩)) := by
  constructor
  · intro h
    cases hs : pyTruthy (List.lookup "state" q) with
    | false => simp [callback, herr, hcode, hs]
    | true =>
        rcases h with h | hlk
        · rw [hs] at h
          exact absurd h (by simp)
        · simp [callback, herr, hcode, hs, hlk]
  · intro s v hstate hts hv
    have hred : (callback clientId q up store cache).consumed = some s ∧
        (callback clientId q up store cache).exchanged =
          some ((List.lookup "code" q).getD "", v) ∧
        (callback clientId q up store cache).store = dictErase s store := by
      cases hex : exchange_code_for_token clientId ((List.lookup "code" q).getD "") v up with
      | ok td => simp [callback, herr, hcode, hstate, hts, hv, hex]
      | error e => simp [callback, herr, hcode, hstate, hts, hv, hex]
    have hgone : List.lookup s (callback clientId q up store cache).store = none := by
      rw [hred.2.2]
      exact lookup_dictErase_self s store hnodup
    refine ⟨hred.1, hred.2.1, hred.2.2, hgone, ?_⟩
    intro clientId2 q2 up2 cache2 herr2 hcode2 hstate2
    revert hgone
    generalize (callback clientId q up store cache).store = st2
    intro hgone
    simp [callback, herr2, hcode2, hstate2, hts, hgone]

/-- Witness for C1: first callback on state `"S1"` consumes the entry (here
with a failing exchange), and a replay of the same state is rejected. -/
theorem claim_C1_state_consumed_once_witness :
    (callback "cid" [("code", "ABC"), ("state", "S1")] ⟨400, "denied", none⟩
        [("S1", "v")] none).consumed = some "S1" ∧
    (callback "cid" [("code", "ABC"), ("state", "S1")] ⟨400, "denied", none⟩
        [("S1", "v")] none).exchanged = some ("ABC", "v") ∧
    List.lookup "S1" (callback "cid" [("code", "ABC"), ("state", "S1")]
        ⟨400, "denied", none⟩ [("S1", "v")] none).store = none ∧
    (callback "cid" [("code", "ABC"), ("state", "S1")] ⟨200, "", none⟩
        (callback "cid" [("code", "ABC"), ("state", "S1")] ⟨400, "denied", none⟩
          [("S1", "v")] none).store none).response = ⟨400, invalidStateContent⟩ := by
  have h := (claim_C1_state_consumed_once "cid" [("code", "ABC"), ("state", "S1")]
      ⟨400, "denied", none⟩ [("S1", "v")] none (by decide) (by decide) (by decide)).2
      "S1" "v" (by decide) (by decide) (by decide)
  exact ⟨h.1, h.2.1, h.2.2.2.1,
    h.2.2.2.2 "cid" [("code", "ABC"), ("state", "S1")] ⟨200, "", none⟩ none
      (by decide) (by decide) (by decide)⟩

/-- C5: on a successful token exchange, `/callback` stores the received access
token in the token cache and returns status 200 with exactly the fields
`message`, `token_type`, `expires_in`, `scope`, `patient`, `redirect_to`; the
response body is a function of the token metadata alone — replacing the
upstream `access_token` by any other value leaves the response unchanged, so
the raw token value itself is never part of the response. -/
theorem claim_C5_token_never_returned (clientId : String)
    (q : List (String × String)) (up : TokenEndpointResponse) (store : Store)
    (cache : Option String) (td : TokenData) (s v : String)
    (hcfg : clientId.isEmpty = false)
    (herr : List.lookup "error" q = none)
    (hcode : pyTruthy (List.lookup "code" q) = true)
    (hstate : List.lookup "state" q = some s) (hts : pyTruthy (some s) = true)
    (hv : List.lookup s store = some v)
    (hstatus : is2xx up.status = true) (hjson : up.json = some td)
    (htok : pyTruthy td.access_token = true) :
    (callback clientId q up store cache).cache = td.access_token ∧
    (callback clientId q up store cache).response =
      ⟨200, callbackSuccessContent td⟩ ∧
    (callbackSuccessContent td).map Prod.fst =
      ["message", "token_type", "expires_in", "scope", "patient", "redirect_to"] ∧
    (∀ a : Option String,
      callbackSuccessContent { td with access_token := a } =
        callbackSuccessContent td) := by
  have hexok : exchange_code_for_token clientId ((List.lookup "code" q).getD "") v up = .ok td := by
    simp [exchange_code_for_token, hcfg, hstatus, hjson, htok]
  refine ⟨?_, ?_, by simp [callbackSuccessContent], fun a => rfl⟩ <;>
    simp [callback, herr, hcode, hstate, hts, hv, hexok]

/-- Witness for C5 at a concrete successful exchange. -/
theorem claim_C5_token_never_returned_witness :
    (callback "cid" [("code", "ABC"), ("state", "S1")]
        ⟨200, "", some ⟨some "tok123", some "Bearer", some 3600, none, none⟩⟩
        [("S1", "v")] none).cache = some "tok123" ∧
    (callback "cid" [("code", "ABC"), ("state", "S1")]
        ⟨200, "", some ⟨some "tok123", some "Bearer", some 3600, none, none⟩⟩
        [("S1", "v")] none).response =
      ⟨200, callbackSuccessContent ⟨some "tok123", some "Bearer", some 3600, none, none⟩⟩ := by
  have h := claim_C5_token_never_returned "cid" [("code", "ABC"), ("state", "S1")]
    ⟨200, "", some ⟨some "tok123", some "Bearer", some 3600, none, none⟩⟩
    [("S1", "v")] none ⟨some "tok123", some "Bearer", some 3600, none, none⟩
    "S1" "v" (by decide) (by decide) (by decide) (by decide) (by decide)
    (by decide) (by decide) rfl (by decide)
  exact ⟨h.1, h.2.1⟩

/-- C10: every failing `/callback` request (status other than 200: OAuth
error, missing code, invalid or replayed state, or exchange failure) leaves
the access-token cache exactly as it was; conversely, any cache change comes
from a 200 response and stores the `access_token` of the parsed upstream
body. -/
theorem claim_C10_cache_frame (clientId : String) (q : List (String × String))
    (up : TokenEndpointResponse) (store : Store) (cache : Option String) :
    ((callback clientId q up store cache).response.status ≠ 200 →
      (callback clientId q up store cache).cache = cache) ∧
    ((callback clientId q up store cache).cache ≠ cache →
      (callback clientId q up store cache).response.status = 200 ∧
      ∃ td, up.json = some td ∧
        (callback clientId q up store cache).cache = td.access_token) := by
  rcases herr : List.lookup "error" q with _ | ec
  case some =>
    have hc : (callback clientId q up store cache).cache = cache := by
      simp only [callback, herr]
      split <;> rfl
    exact ⟨fun _ => hc, fun h => absurd hc h⟩
  case none =>
    cases hcode : pyTruthy (List.lookup "code" q) with
    | false =>
        have hc : (callback clientId q up store cache).cache = cache := by
          simp [callback, herr, hcode]
        exact ⟨fun _ => hc, fun h => absurd hc h⟩
    | true =>
        cases hstate : pyTruthy (List.lookup "state" q) with
        | false =>
            have hc : (callback clientId q up store cache).cache = cache := by
              simp [callback, herr, hcode, hstate]
            exact ⟨fun _ => hc, fun h => absurd hc h⟩
        | true =>
            rcases hv : List.lookup ((List.lookup "state" q).getD "") store with _ | v
            · have hc : (callback clientId q up store cache).cache = cache := by
                simp [callback, herr, hcode, hstate, hv]
              exact ⟨fun _ => hc, fun h => absurd hc h⟩
            · cases hex : exchange_code_for_token clientId
                  ((List.lookup "code" q).getD "") v up with
              | error e =>
                  have hc : (callback clientId q up store cache).cache = cache := by
                    simp [callback, herr, hcode, hstate, hv, hex]
                  exact ⟨fun _ => hc, fun h => absurd hc h⟩
              | ok td =>
                  have h200 : (callback clientId q up store cache).response.status = 200 := by
                    simp [callback, herr, hcode, hstate, hv, hex]
                  have hc : (callback clientId q up store cache).cache = td.access_token := by
                    simp [callback, herr, hcode, hstate, hv, hex]
                  exact ⟨fun h => absurd h200 h,
                    fun _ => ⟨h200, td, (exchange_ok_inv hex).1, hc⟩⟩

/-- Witness for C10: a replayed-state callback with a populated cache leaves
the cached token in place. -/
theorem claim_C10_cache_frame_witness :
    (callback "cid" [("code", "ABC"), ("state", "S9")] ⟨200, "", none⟩ []
        (some "tok123")).cache = some "tok123" :=
  (claim_C10_cache_frame "cid" [("code", "ABC"), ("state", "S9")] ⟨200, "", none⟩
      [] (some "tok123")).1 (by decide)

/-- C6: with an empty token cache, `/patients` returns the 401
no-access-token response without contacting the resource server and without
touching the cache; with a cached token and a 401 from the resource server,
the cache is cleared and a 401 re-authorize response is returned, so that an
immediately following `/patients` call (any upstream response) gets the
no-token 401; and the cache changes only in that resource-server-401 case. -/
theorem claim_C6_patients_cache_invalidation (cache : Option String)
    (fhir : FhirResponse) :
    (pyTruthy cache = false →
      (get_patients cache fhir).response = ⟨401, [("detail", .s noTokenDetail)]⟩ ∧
      (get_patients cache fhir).contacted = false ∧
      (get_patients cache fhir).cache = cache) ∧
    (pyTruthy cache = true → fhir.status = 401 →
      (get_patients cache fhir).cache = none ∧
      (get_patients cache fhir).response =
        ⟨401, [("detail", .s expiredTokenDetail)]⟩ ∧
      ∀ fhir2, (get_patients (get_patients cache fhir).cache fhir2).response =
        ⟨401, [("detail", .s noTokenDetail)]⟩) ∧
    ((get_patients cache fhir).cache ≠ cache →
      pyTruthy cache = true ∧ fhir.status = 401) := by
  refine ⟨?_, ?_, ?_⟩
  · intro ht
    simp [get_patients, ht]
  · intro ht h401
    have h2 : is2xx fhir.status = false := by rw [h401]; decide
    have hbeq : (fhir.status == 401) = true := by rw [h401]; decide
    have hcl : (get_patients cache fhir).cache = none := by
      simp [get_patients, ht, h2, hbeq]
    refine ⟨hcl, by simp [get_patients, ht, h2, hbeq], ?_⟩
    intro fhir2
    rw [hcl]
    simp [get_patients, pyTruthy]
  · intro hne
    cases ht : pyTruthy cache with
    | false =>
        have hc : (get_patients cache fhir).cache = cache := by
          simp [get_patients, ht]
        exact absurd hc hne
    | true =>
        cases h2 : is2xx fhir.status with
        | true =>
            have hc : (get_patients cache fhir).cache = cache := by
              rcases hj : fhir.json with _ | fields <;> simp [get_patients, ht, h2, hj]
            exact absurd hc hne
        | false =>
            cases hbeq : fhir.status == 401 with
            | true => exact ⟨rfl, eq_of_beq hbeq⟩
            | false =>
                have hc : (get_patients cache fhir).cache = cache := by
                  simp [get_patients, ht, h2, hbeq]
                exact absurd hc hne

/-- Witness for C6: the spec scenario — cached token `"tok123"`, a simulated
401 from the resource server clears the cache, and a following call returns
the no-token 401. -/
theorem claim_C6_patients_cache_invalidation_witness :
    (get_patients (some "tok123") ⟨401, "unauthorized", none⟩).cache = none ∧
    (get_patients (some "tok123") ⟨401, "unauthorized", none⟩).response =
      ⟨401, [("detail", .s expiredTokenDetail)]⟩ ∧
    (get_patients (get_patients (some "tok123") ⟨401, "unauthorized", none⟩).cache
        ⟨200, "", none⟩).response = ⟨401, [("detail", .s noTokenDetail)]⟩ := by
  have h := ((claim_C6_patients_cache_invalidation (some "tok123")
      ⟨401, "unauthorized", none⟩).2.1 (by decide) rfl)
  exact ⟨h.1, h.2.1, h.2.2 ⟨200, "", none⟩⟩

end OracleApp
